import Mathlib

/-!
Shallow embedding of `src/hugchat/message.py` (the `Message` event-stream
reader of hugging-chat-api) and verification of its specification claims.

Python events are dynamically typed dict-shaped values; we model the value
universe actually exercised by `Message.__next__` (strings, dicts with string
keys, lists) and the exceptions the module raises or catches.
-/

/-- A Python runtime value as used by `Message.__next__`: events are dicts
with string keys, whose values nest strings, lists and further dicts. -/
inductive PyVal where
  | str : String → PyVal
  | dict : List (String × PyVal) → PyVal
  | list : List PyVal → PyVal

/-- The exceptions that flow through `message.py`: `ChatError` and
`ModelOverloadedError` from `hugchat.exceptions`, the built-in
`StopIteration`, `KeyError` and `TypeError`, and a generic `Exception`
with a message (used for producer-raised failures and for
`Exception("Rejected but no error captured!")`). -/
inductive PyExc where
  | chatError : PyVal → PyExc
  | modelOverloadedError : String → PyExc
  | stopIteration : PyExc
  | keyError : String → PyExc
  | typeError : String → PyExc
  | exc : String → PyExc

/-- One pull from the wrapped generator `g`: it either yields a value or
raises an exception; an exhausted generator (modelled as the empty list)
raises `StopIteration`. -/
inductive PullResult where
  | yield : PyVal → PullResult
  | raiseExc : PyExc → PullResult

/-- The single-quote character, used by Python `repr` of strings. -/
def pySQ : String := String.singleton (Char.ofNat 39)

mutual

/-- Python `repr` of a value (nested positions of `str(a)`): strings are
single-quoted, dicts render as \x7b'k': v, ...\x7d, lists as [v, ...]. -/
def pyRepr : PyVal → String
  | .str s => pySQ ++ s ++ pySQ
  | .dict kvs => "\x7b" ++ pyReprKVs kvs ++ "\x7d"
  | .list vs => "[" ++ pyReprList vs ++ "]"

/-- Comma-separated `'key': repr(value)` entries of a dict repr. -/
def pyReprKVs : List (String × PyVal) → String
  | [] => ""
  | [kv] => pySQ ++ kv.1 ++ pySQ ++ ": " ++ pyRepr kv.2
  | kv :: rest => pySQ ++ kv.1 ++ pySQ ++ ": " ++ pyRepr kv.2 ++ ", " ++ pyReprKVs rest

/-- Comma-separated element reprs of a list repr. -/
def pyReprList : List PyVal → String
  | [] => ""
  | [v] => pyRepr v
  | v :: rest => pyRepr v ++ ", " ++ pyReprList rest

end

/-- Python `str(a)`: a top-level string prints bare, containers print as
their `repr`. -/
def pyStr : PyVal → String
  | .str s => s
  | v => pyRepr v

/-- Python `==` between a runtime value and a string literal: true exactly
when the value is that string (a dict or list never equals a str). -/
def pyEqStr : PyVal → String → Bool
  | .str u, s => u == s
  | _, _ => false

/-- Helper for Python substring search on char lists. -/
def strContainsAux (needle : List Char) : List Char → Bool
  | [] => needle.isEmpty
  | c :: rest => needle.isPrefixOf (c :: rest) || strContainsAux needle rest

/-- Python `needle in hay` for strings. -/
def pyInStr (needle hay : String) : Bool :=
  strContainsAux needle.data hay.data

/-- Python `a[k]` for a string key `k`: succeeds on a dict containing the
key, raises `KeyError` on a dict missing it, and `TypeError` on a string
or list. -/
def pySubscript : PyVal → String → Except PyExc PyVal
  | .dict kvs, k =>
      match kvs.lookup k with
      | some v => .ok v
      | none => .error (.keyError k)
  | .str _, _ => .error (.typeError "string indices must be integers")
  | .list _, _ => .error (.typeError "list indices must be integers or slices, not str")

/-- Python `a.__contains__(k)` for a string `k`: key membership on a dict,
substring test on a string, element membership on a list. -/
def pyContains (a : PyVal) (k : String) : Bool :=
  match a with
  | .dict kvs => (kvs.lookup k).isSome
  | .str s => pyInStr k s
  | .list vs => vs.any fun v => pyEqStr v k

/-- Python `for x in v`: a list yields its elements, a string its
characters, a dict its keys. -/
def pyIter : PyVal → List PyVal
  | .list vs => vs
  | .str s => s.data.map fun c => .str (String.singleton c)
  | .dict kvs => kvs.map fun kv => .str kv.1

/-! Constants of `message.py`. -/

abbrev MSGTYPE_FINAL : String := "finalAnswer"

abbrev MSGTYPE_STREAM : String := "stream"

abbrev MSGTYPE_WEB : String := "webSearch"

abbrev MSGTYPE_STATUS : String := "status"

abbrev MSGSTATUS_PENDING : Nat := 0

abbrev MSGSTATUS_RESOLVED : Nat := 1

abbrev MSGSTATUS_REJECTED : Nat := 2

/-- The message of the `ModelOverloadedError` raised by the classifier. -/
def overloadedDetail : String :=
  "Model is overloaded, please try again later or switch to another model."

/-- Python class `WebSearchSource`: the three attributes assigned in the `webSearch`
branch. The Python class annotates them `str`, but annotations are not
enforced at runtime and the code assigns whatever `source["title"]` etc.
hold, so the fields carry runtime values. -/
structure WebSearchSource where
  title : PyVal
  link : PyVal
  hostname : PyVal

/-- The `Message` dataclass state. `g` is the remaining producer;
`_stream_yield_all` and `web_search` are the construction flags; the rest
are the mutable fields. `final_answer` is annotated `str` in the source but
is assigned the raw `a["text"]` value, so it carries a runtime value. -/
structure Message where
  g : List PullResult
  _stream_yield_all : Bool
  web_search : Bool
  web_search_sources : List WebSearchSource
  final_answer : PyVal
  web_search_done : Bool
  msg_status : Nat
  error : Option PyExc

/-- Dataclass construction `Message(g, _stream_yield_all, web_search)` with
the remaining fields left to their defaults. In the source the default of
`web_search_done` is the expression `not web_search`, but a dataclass
default is evaluated once, when the class body runs, where `web_search`
names the class-level default `False`; the resulting default is therefore
the constant `True`, independent of the `web_search` argument. -/
def Message.construct (g : List PullResult) (syall ws : Bool) : Message :=
  { g := g
    _stream_yield_all := syall
    web_search := ws
    web_search_sources := []
    final_answer := .str ""
    web_search_done := true
    msg_status := MSGSTATUS_PENDING
    error := none }

/-- One parse step of the `webSearch` branch body: `source["title"]`,
`source["link"]`, `source["hostname"]` in that order; the first failing
subscript raises. -/
def parseSource (v : PyVal) : Except PyExc WebSearchSource :=
  match pySubscript v "title" with
  | .error e => .error e
  | .ok t =>
    match pySubscript v "link" with
    | .error e => .error e
    | .ok l =>
      match pySubscript v "hostname" with
      | .error e => .error e
      | .ok h => .ok ⟨t, l, h⟩

/-- The `for source in sources: ... append` loop: builds the list in order;
on the first failing entry it stops, returning the partial list built so
far together with the raised exception. -/
def parseSources : List PyVal → List WebSearchSource × Option PyExc
  | [] => ([], none)
  | v :: vs =>
    match parseSource v with
    | .ok w =>
        let r := parseSources vs
        (w :: r.1, r.2)
    | .error e => ([], some e)

/-- Outcome of one `__next__` call: `StopIteration` raised to the caller,
a returned event `a`, or an implicit `return None`. -/
inductive NextResult where
  | stopIter : NextResult
  | yielded : PyVal → NextResult
  | noOutput : NextResult

/-- The event dispatch of `__next__` (lines 69-97): given the state after
the pull (`s1`, with `g` already advanced), the event `a` and its
discriminant `t = a["type"]`, return the updated state, or — when a
statement inside the `try` raises — the state as mutated so far paired
with the exception (to be caught by the `except` clause). -/
def Message.dispatch (s1 : Message) (a t : PyVal) : Except (Message × PyExc) Message :=
  if pyEqStr t MSGTYPE_STREAM then
    .ok { s1 with web_search_done := true }
  else if pyEqStr t MSGTYPE_STATUS then
    .ok s1
  else if pyEqStr t MSGTYPE_FINAL then
    match pySubscript a "text" with
    | .ok v => .ok { s1 with final_answer := v, msg_status := MSGSTATUS_RESOLVED }
    | .error e => .error (s1, e)
  else if pyEqStr t MSGTYPE_WEB then
    if pyContains a "sources" then
      let s2 := { s1 with web_search_sources := [] }
      match pySubscript a "sources" with
      | .error e => .error (s2, e)
      | .ok srcVal =>
        match parseSources (pyIter srcVal) with
        | (ws, none) => .ok { s2 with web_search_sources := ws }
        | (ws, some e) => .error ({ s2 with web_search_sources := ws }, e)
    else .ok s1
  else
    if pyInStr "Model is overloaded" (pyStr a) then
      .ok { s1 with error := some (.modelOverloadedError overloadedDetail), msg_status := MSGSTATUS_REJECTED }
    else if pyContains a "error" then
      match pySubscript a "error" with
      | .ok v =>
          .ok { s1 with error := some (.chatError v), msg_status := MSGSTATUS_REJECTED }
      | .error e => .error (s1, e)
    else
      .ok { s1 with error := some (.chatError
              (.str ("Unknow json response: " ++ pyStr a))) }

/-- Method `Message.__next__`. `if self.msg_status: raise StopIteration` (any
nonzero status); otherwise pull one element from `g` inside `try`; on a
yielded event read `a["type"]` and dispatch; finally surface the raw event
iff `self._stream_yield_all or t == MSGTYPE_STREAM`; any exception raised
inside the `try` (producer failure, `StopIteration` from an exhausted
producer, `KeyError`/`TypeError` from subscripts) is caught, stored in
`error`, and sets `msg_status = MSGSTATUS_REJECTED` with no output. -/
def Message.next (self : Message) : Message × NextResult :=
  if self.msg_status ≠ 0 then (self, .stopIter)
  else
    match self.g with
    | [] =>
        ({ self with error := some .stopIteration,
                     msg_status := MSGSTATUS_REJECTED }, .noOutput)
    | .raiseExc e :: rest =>
        ({ self with g := rest, error := some e,
                     msg_status := MSGSTATUS_REJECTED }, .noOutput)
    | .yield a :: rest =>
        let s1 := { self with g := rest }
        match pySubscript a "type" with
        | .error e =>
            ({ s1 with error := some e,
                       msg_status := MSGSTATUS_REJECTED }, .noOutput)
        | .ok t =>
            match Message.dispatch s1 a t with
            | .ok s2 =>
                if s1._stream_yield_all || pyEqStr t MSGTYPE_STREAM then
                  (s2, .yielded a)
                else (s2, .noOutput)
            | .error (s2, e) =>
                ({ s2 with error := some e,
                           msg_status := MSGSTATUS_REJECTED }, .noOutput)

/-- Method `Message.done`: returns `msg_status`. -/
def Message.done (self : Message) : Nat := self.msg_status

/-- Method `Message.done_search`: returns `web_search_done`. -/
def Message.done_search (self : Message) : Bool := self.web_search_done

/-- The `while not self.done(): self.__next__()` loop of
`wait_until_done`, with explicit fuel. Each pending iteration either
consumes one producer element or (on exhaustion) rejects, so fuel
`g.length + 1` always reaches a nonzero status. -/
def Message.waitLoop : Nat → Message → Message
  | 0, s => s
  | n + 1, s => if s.msg_status ≠ 0 then s else Message.waitLoop n (Message.next s).1

/-- Method `Message.wait_until_done`: loop until `done()` is nonzero, then return
`final_answer` if resolved, else raise `error` when one was captured, else
raise `Exception("Rejected but no error captured!")`. The result pairs the
final state with the returned value or raised exception. -/
def Message.wait_until_done (s : Message) : Message × Except PyExc PyVal :=
  let sF := Message.waitLoop (s.g.length + 1) s
  if sF.msg_status = MSGSTATUS_RESOLVED then (sF, .ok sF.final_answer)
  else
    match sF.error with
    | some e => (sF, .error e)
    | none => (sF, .error (.exc "Rejected but no error captured!"))

/-- States of a reader reachable from construction by advancing. -/
inductive Reachable : Message → Prop
  | init (g : List PullResult) (syall ws : Bool) : Reachable (Message.construct g syall ws)
  | step (s : Message) : Reachable s → Reachable (Message.next s).1

/-! Basic lemmas about one advance step. -/

lemma waitLoop_of_terminal (n : Nat) (s : Message) (h : s.msg_status ≠ 0) :
    Message.waitLoop n s = s := by
  cases n with
  | zero => rfl
  | succ m => simp [Message.waitLoop, h]

lemma next_of_terminal (s : Message) (h : s.msg_status ≠ 0) :
    Message.next s = (s, NextResult.stopIter) := by
  simp [Message.next, h]

lemma dispatch_ok_fields (s1 : Message) (a t : PyVal) (s2 : Message)
    (h0 : s1.msg_status = 0)
    (h : Message.dispatch s1 a t = Except.ok s2) :
    s2.g = s1.g ∧
    (s2.msg_status = 0 ∨ s2.msg_status = 1 ∨ s2.msg_status = 2) ∧
    (s2.msg_status = 2 → s2.error.isSome = true) ∧
    (s2.msg_status = 1 → pyEqStr t MSGTYPE_FINAL = true) := by
  unfold Message.dispatch at h
  repeat' split at h
  all_goals cases h
  all_goals simp_all

lemma dispatch_error_fields (s1 : Message) (a t : PyVal) (s2 : Message) (e : PyExc)
    (h : Message.dispatch s1 a t = Except.error (s2, e)) :
    s2.g = s1.g ∧ s2.msg_status = s1.msg_status := by
  unfold Message.dispatch at h
  repeat' split at h
  all_goals cases h
  all_goals simp_all

lemma next_pending_fields (s : Message) (h0 : s.msg_status = 0) :
    (Message.next s).1.g = s.g.tail ∧
    ((Message.next s).1.msg_status = 0 ∨ (Message.next s).1.msg_status = 1 ∨
      (Message.next s).1.msg_status = 2) ∧
    ((Message.next s).1.msg_status = 2 → (Message.next s).1.error.isSome = true) ∧
    (s.g = [] → (Message.next s).1.msg_status = 2) ∧
    ((Message.next s).1.msg_status = 1 →
      ∃ a rest t, s.g = PullResult.yield a :: rest ∧
        pySubscript a "type" = Except.ok t ∧ pyEqStr t MSGTYPE_FINAL = true) := by
  rcases hg : s.g with _ | ⟨x, rest⟩
  · simp [Message.next, h0, hg]
  · cases x with
    | raiseExc e => simp [Message.next, h0, hg]
    | yield a =>
      rcases hsub : pySubscript a "type" with e | t
      · simp [Message.next, h0, hg, hsub]
      · rcases hd : Message.dispatch { s with g := rest } a t with ⟨s2, e⟩ | s2
        · rw [h0] at hd
          have hfields := dispatch_error_fields _ a t s2 e hd
          have hfst : (Message.next s).1 =
              { s2 with error := some e, msg_status := MSGSTATUS_REJECTED } := by
            simp only [Message.next, h0, hg, hsub, hd]
            simp only [ne_eq, not_true_eq_false, reduceIte]
          rw [hfst]
          refine ⟨hfields.1, by simp, by simp, by simp, by simp⟩
        · rw [h0] at hd
          have hfields := dispatch_ok_fields _ a t s2 rfl hd
          have hfst : (Message.next s).1 = s2 := by
            simp only [Message.next, h0, hg, hsub, hd]
            simp only [ne_eq, not_true_eq_false, reduceIte]
            split <;> rfl
          rw [hfst]
          refine ⟨hfields.1, hfields.2.1, hfields.2.2.1, by simp, ?_⟩
          intro h1
          exact ⟨a, rest, t, rfl, hsub, hfields.2.2.2 h1⟩

lemma pyEqStr_true (t : PyVal) (u : String) (h : pyEqStr t u = true) : t = PyVal.str u := by
  cases t with
  | str v => simp [pyEqStr] at h; rw [h]
  | dict kvs => simp [pyEqStr] at h
  | list vs => simp [pyEqStr] at h

lemma pyContains_of_subscript_ok (a : PyVal) (k : String) (v : PyVal)
    (h : pySubscript a k = Except.ok v) : pyContains a k = true := by
  cases a with
  | str u => simp [pySubscript] at h
  | list vs => simp [pySubscript] at h
  | dict kvs =>
    rcases hl : kvs.lookup k with _ | w
    · simp [pySubscript, hl] at h
    · simp [pyContains, hl]

lemma next_yield_ok (s : Message) (a t : PyVal) (rest : List PullResult)
    (h0 : s.msg_status = 0) (hg : s.g = PullResult.yield a :: rest)
    (ht : pySubscript a "type" = Except.ok t) (s2 : Message)
    (hd : Message.dispatch { s with g := rest, msg_status := 0 } a t = Except.ok s2) :
    (Message.next s).1 = s2 ∧
    ((s._stream_yield_all || pyEqStr t MSGTYPE_STREAM) = true →
      (Message.next s).2 = NextResult.yielded a) ∧
    ((s._stream_yield_all || pyEqStr t MSGTYPE_STREAM) = false →
      (Message.next s).2 = NextResult.noOutput) := by
  simp only [Message.next, h0, hg, ht, hd]
  simp only [ne_eq, not_true_eq_false, reduceIte]
  refine ⟨by split <;> rfl, ?_, ?_⟩
  · intro hc; simp [hc]
  · intro hc; simp [hc]

lemma next_yield_error (s : Message) (a t : PyVal) (rest : List PullResult)
    (h0 : s.msg_status = 0) (hg : s.g = PullResult.yield a :: rest)
    (ht : pySubscript a "type" = Except.ok t) (s2 : Message) (e : PyExc)
    (hd : Message.dispatch { s with g := rest, msg_status := 0 } a t = Except.error (s2, e)) :
    Message.next s =
      ({ s2 with error := some e, msg_status := MSGSTATUS_REJECTED }, NextResult.noOutput) := by
  simp only [Message.next, h0, hg, ht, hd]
  simp only [ne_eq, not_true_eq_false, reduceIte]

lemma waitLoop_status_ne_zero (n : Nat) : ∀ s : Message, s.g.length ≤ n →
    (Message.waitLoop (n + 1) s).msg_status ≠ 0 := by
  induction n with
  | zero =>
    intro s hlen
    by_cases h0 : s.msg_status = 0
    · have hnil : s.g = [] := List.length_eq_zero.mp (Nat.le_zero.mp hlen)
      have h2 := (next_pending_fields s h0).2.2.2.1 hnil
      have hstep : Message.waitLoop 1 s = (Message.next s).1 := by
        simp [Message.waitLoop, h0]
      rw [hstep, h2]
      simp
    · rw [waitLoop_of_terminal _ _ h0]; exact h0
  | succ m ih =>
    intro s hlen
    by_cases h0 : s.msg_status = 0
    · have hf := next_pending_fields s h0
      have hstep : Message.waitLoop (m + 1 + 1) s =
          Message.waitLoop (m + 1) (Message.next s).1 := by
        simp [Message.waitLoop, h0]
      rw [hstep]
      apply ih
      rw [hf.1]
      have := List.length_tail s.g
      omega
    · rw [waitLoop_of_terminal _ _ h0]; exact h0

lemma waitLoop_status_le_two (n : Nat) : ∀ s : Message, s.msg_status ≤ 2 →
    (Message.waitLoop n s).msg_status ≤ 2 := by
  induction n with
  | zero => intro s h; exact h
  | succ m ih =>
    intro s h
    by_cases h0 : s.msg_status = 0
    · have hstep : Message.waitLoop (m + 1) s =
          Message.waitLoop m (Message.next s).1 := by
        simp [Message.waitLoop, h0]
      rw [hstep]
      apply ih
      rcases (next_pending_fields s h0).2.1 with h | h | h <;> omega
    · rw [waitLoop_of_terminal _ _ h0]; exact h

lemma wait_fst (s : Message) :
    (Message.wait_until_done s).1 = Message.waitLoop (s.g.length + 1) s := by
  unfold Message.wait_until_done
  dsimp only
  split
  · rfl
  · split <;> rfl

lemma wait_snd_resolved (s : Message)
    (h : (Message.waitLoop (s.g.length + 1) s).msg_status = 1) :
    (Message.wait_until_done s).2 =
      Except.ok (Message.waitLoop (s.g.length + 1) s).final_answer := by
  unfold Message.wait_until_done
  simp [h]

lemma wait_snd_error (s : Message) (e : PyExc)
    (hne : (Message.waitLoop (s.g.length + 1) s).msg_status ≠ 1)
    (he : (Message.waitLoop (s.g.length + 1) s).error = some e) :
    (Message.wait_until_done s).2 = Except.error e := by
  unfold Message.wait_until_done
  simp [hne, he]

lemma wait_snd_no_error (s : Message)
    (hne : (Message.waitLoop (s.g.length + 1) s).msg_status ≠ 1)
    (he : (Message.waitLoop (s.g.length + 1) s).error = none) :
    (Message.wait_until_done s).2 =
      Except.error (PyExc.exc "Rejected but no error captured!") := by
  unfold Message.wait_until_done
  simp [hne, he]

lemma dispatch_stream (s1 : Message) (a t : PyVal) (h : pyEqStr t MSGTYPE_STREAM = true) :
    Message.dispatch s1 a t = Except.ok { s1 with web_search_done := true } := by
  unfold Message.dispatch
  simp [h]

lemma dispatch_status (s1 : Message) (a t : PyVal)
    (h1 : pyEqStr t MSGTYPE_STREAM = false) (h2 : pyEqStr t MSGTYPE_STATUS = true) :
    Message.dispatch s1 a t = Except.ok s1 := by
  unfold Message.dispatch
  simp [h1, h2]

lemma dispatch_final (s1 : Message) (a t v : PyVal)
    (h1 : pyEqStr t MSGTYPE_STREAM = false) (h2 : pyEqStr t MSGTYPE_STATUS = false)
    (h3 : pyEqStr t MSGTYPE_FINAL = true) (hv : pySubscript a "text" = Except.ok v) :
    Message.dispatch s1 a t = Except.ok
      { s1 with final_answer := v, msg_status := MSGSTATUS_RESOLVED } := by
  unfold Message.dispatch
  simp [h1, h2, h3, hv]

lemma dispatch_web_sources (s1 : Message) (a : PyVal) (items : List PyVal)
    (ws : List WebSearchSource)
    (hs : pySubscript a "sources" = Except.ok (PyVal.list items))
    (hp : parseSources items = (ws, none)) :
    Message.dispatch s1 a (PyVal.str MSGTYPE_WEB) =
      Except.ok { s1 with web_search_sources := ws } := by
  have hc := pyContains_of_subscript_ok a "sources" _ hs
  unfold Message.dispatch
  simp [pyEqStr, hc, hs, pyIter, hp]
  rfl

lemma dispatch_classifier_overloaded (s1 : Message) (a t : PyVal)
    (h1 : pyEqStr t MSGTYPE_STREAM = false) (h2 : pyEqStr t MSGTYPE_STATUS = false)
    (h3 : pyEqStr t MSGTYPE_FINAL = false) (h4 : pyEqStr t MSGTYPE_WEB = false)
    (hov : pyInStr "Model is overloaded" (pyStr a) = true) :
    Message.dispatch s1 a t = Except.ok { s1 with
      error := some (PyExc.modelOverloadedError overloadedDetail),
      msg_status := MSGSTATUS_REJECTED } := by
  unfold Message.dispatch
  simp [h1, h2, h3, h4, hov]

lemma dispatch_classifier_error_field (s1 : Message) (a t v : PyVal)
    (h1 : pyEqStr t MSGTYPE_STREAM = false) (h2 : pyEqStr t MSGTYPE_STATUS = false)
    (h3 : pyEqStr t MSGTYPE_FINAL = false) (h4 : pyEqStr t MSGTYPE_WEB = false)
    (hov : pyInStr "Model is overloaded" (pyStr a) = false)
    (hv : pySubscript a "error" = Except.ok v) :
    Message.dispatch s1 a t = Except.ok { s1 with
      error := some (PyExc.chatError v), msg_status := MSGSTATUS_REJECTED } := by
  have hc := pyContains_of_subscript_ok a "error" v hv
  unfold Message.dispatch
  simp [h1, h2, h3, h4, hov, hc, hv]

lemma dispatch_classifier_unknown (s1 : Message) (a t : PyVal)
    (h1 : pyEqStr t MSGTYPE_STREAM = false) (h2 : pyEqStr t MSGTYPE_STATUS = false)
    (h3 : pyEqStr t MSGTYPE_FINAL = false) (h4 : pyEqStr t MSGTYPE_WEB = false)
    (hov : pyInStr "Model is overloaded" (pyStr a) = false)
    (hc : pyContains a "error" = false) :
    Message.dispatch s1 a t = Except.ok { s1 with
      error := some (PyExc.chatError (PyVal.str
        ("Unknow json response: " ++ pyStr a))) } := by
  unfold Message.dispatch
  simp [h1, h2, h3, h4, hov, hc]

lemma parseSources_of_ok (items : List PyVal)
    (hok : ∀ v ∈ items, ∃ w, parseSource v = Except.ok w) :
    (parseSources items).2 = none ∧
    List.Forall₂ (fun it w => parseSource it = Except.ok w) items (parseSources items).1 := by
  induction items with
  | nil => simp [parseSources]
  | cons v vs ih =>
    obtain ⟨w, hw⟩ := hok v (by simp)
    have ih2 := ih (fun u hu => hok u (by simp [hu]))
    simp only [parseSources, hw]
    exact ⟨ih2.1, List.Forall₂.cons hw ih2.2⟩

/-! Claim theorems. -/

/-- C1: `msg_status` transitions only from Pending (0) to Resolved (1) or
to Rejected (2) and never reverses; and for a reader whose status is
terminal (Resolved or Rejected), `__next__` raises `StopIteration`
(end-of-sequence) and changes no field of the reader: the result state is
the very same reader. -/
theorem status_monotone_terminal_absorbing (s : Message) :
    (s.msg_status = MSGSTATUS_RESOLVED ∨ s.msg_status = MSGSTATUS_REJECTED →
      Message.next s = (s, NextResult.stopIter)) ∧
    ((Message.next s).1.msg_status ≠ s.msg_status →
      s.msg_status = MSGSTATUS_PENDING ∧
        ((Message.next s).1.msg_status = MSGSTATUS_RESOLVED ∨
          (Message.next s).1.msg_status = MSGSTATUS_REJECTED)) := by
  constructor
  · intro h
    apply next_of_terminal
    rcases h with h | h <;> simp [h]
  · intro hne
    by_cases h0 : s.msg_status = 0
    · refine ⟨h0, ?_⟩
      rcases (next_pending_fields s h0).2.1 with h | h | h
      · exact absurd (h.trans h0.symm) hne
      · exact Or.inl h
      · exact Or.inr h
    · rw [next_of_terminal s h0] at hne
      exact absurd rfl hne

/-- Witness for C1: a concrete resolved reader (with producer elements
still unconsumed) advances to `StopIteration` with the state unchanged. -/
theorem status_monotone_terminal_absorbing_witness :
    Message.next
        { g := [PullResult.yield (PyVal.str "x")]
          _stream_yield_all := false
          web_search := false
          web_search_sources := []
          final_answer := PyVal.str "done"
          web_search_done := true
          msg_status := MSGSTATUS_RESOLVED
          error := none } =
      ({ g := [PullResult.yield (PyVal.str "x")]
         _stream_yield_all := false
         web_search := false
         web_search_sources := []
         final_answer := PyVal.str "done"
         web_search_done := true
         msg_status := MSGSTATUS_RESOLVED
         error := none }, NextResult.stopIter) :=
  (status_monotone_terminal_absorbing _).1 (Or.inl rfl)

/-- C5: a pulled event whose `type` discriminant is `"stream"` sets
`web_search_done` to true and is surfaced (returned) to the caller; the
result state and surfaced event are the same for every value of
`_stream_yield_all` and whatever `web_search`/`web_search_done` held
before, and no other field changes. -/
theorem stream_event_surfaced_unconditionally (s : Message) (a : PyVal)
    (rest : List PullResult) (h0 : s.msg_status = MSGSTATUS_PENDING)
    (hg : s.g = PullResult.yield a :: rest)
    (ht : pySubscript a "type" = Except.ok (PyVal.str MSGTYPE_STREAM)) :
    Message.next s =
      ({ s with g := rest, web_search_done := true }, NextResult.yielded a) := by
  have hd := dispatch_stream { s with g := rest, msg_status := 0 } a
    (PyVal.str MSGTYPE_STREAM) rfl
  have h := next_yield_ok s a (PyVal.str MSGTYPE_STREAM) rest h0 hg ht _ hd
  have h2 := h.2.1 (by simp [pyEqStr])
  have hpair : Message.next s = ((Message.next s).1, (Message.next s).2) := rfl
  rw [hpair, h.1, h2, h0]

/-- Witness for C5: a stream event is surfaced even with
`_stream_yield_all = false` and `web_search = true`. -/
theorem stream_event_surfaced_unconditionally_witness :
    Message.next (Message.construct
        [PullResult.yield (PyVal.dict [("type", PyVal.str "stream"), ("token", PyVal.str "h")])]
        false true) =
      ({ Message.construct
          [PullResult.yield (PyVal.dict [("type", PyVal.str "stream"), ("token", PyVal.str "h")])]
          false true with g := [], web_search_done := true },
        NextResult.yielded (PyVal.dict [("type", PyVal.str "stream"), ("token", PyVal.str "h")])) :=
  stream_event_surfaced_unconditionally _ _ _ rfl rfl rfl

/-- C6 (evaluation at the failing input): a reader constructed with
`web_search = True`, leaving `web_search_done` to its default, starts with
`web_search_done = true` — not the negation of `web_search` the claim and
the dataclass docstring state. The dataclass default expression
`not web_search` was evaluated once, at class-definition time, against the
class-level default `web_search = False`, so the default is constantly
`True`. -/
theorem web_search_done_default_not_negation :
    (Message.construct [] false true).web_search = true ∧
    (Message.construct [] false true).web_search_done = true ∧
    (Message.construct [] false true).web_search_done ≠
      (!(Message.construct [] false true).web_search) := by
  exact ⟨rfl, rfl, by decide⟩

/-- C9: with `_stream_yield_all = false`, every advance that surfaces an
event to the caller surfaced a stream-typed one; contrapositively, no
event whose discriminant is not `"stream"` (nor any malformed event or
failing pull) is ever surfaced — `__next__` returns `None` for all of
those, so zero events reach the caller until a stream event appears. -/
theorem surfaced_implies_stream (s : Message) (v : PyVal)
    (hy : s._stream_yield_all = false)
    (h : (Message.next s).2 = NextResult.yielded v) :
    pySubscript v "type" = Except.ok (PyVal.str MSGTYPE_STREAM) := by
  by_cases h0 : s.msg_status = 0
  · rcases hg : s.g with _ | ⟨x, rest⟩
    · simp [Message.next, h0, hg] at h
    · cases x with
      | raiseExc e => simp [Message.next, h0, hg] at h
      | yield a =>
        rcases hsub : pySubscript a "type" with e | t
        · simp [Message.next, h0, hg, hsub] at h
        · rcases hd : Message.dispatch { s with g := rest, msg_status := 0 } a t
              with ⟨s2, e⟩ | s2
          · have hne := next_yield_error s a t rest h0 hg hsub s2 e hd
            rw [hne] at h
            cases h
          · have hn := next_yield_ok s a t rest h0 hg hsub s2 hd
            cases hb : pyEqStr t MSGTYPE_STREAM with
            | true =>
              have h2 := hn.2.1 (by simp [hy, hb])
              have hav := h2.symm.trans h
              injection hav with hav1
              subst hav1
              rw [pyEqStr_true t MSGTYPE_STREAM hb] at hsub
              exact hsub
            | false =>
              have h2 := hn.2.2 (by simp [hy, hb])
              cases h2.symm.trans h
  · rw [next_of_terminal s h0] at h
    cases h

/-- Witness for C9 at a concrete input: the only surfaced event of a
stream-then-status producer is stream-typed. -/
theorem surfaced_implies_stream_witness :
    pySubscript (PyVal.dict [("type", PyVal.str "stream")]) "type" =
      Except.ok (PyVal.str MSGTYPE_STREAM) :=
  surfaced_implies_stream
    (Message.construct [PullResult.yield (PyVal.dict [("type", PyVal.str "stream")])] false false)
    (PyVal.dict [("type", PyVal.str "stream")]) rfl rfl

/-- C4: when the producer raises an exception during the pull, `__next__`
captures that exception verbatim in `error`, sets `msg_status` to
Rejected, and surfaces no event; a subsequent `wait_until_done` raises
that same exception. -/
theorem producer_exception_captured (s : Message) (e : PyExc)
    (rest : List PullResult) (h0 : s.msg_status = MSGSTATUS_PENDING)
    (hg : s.g = PullResult.raiseExc e :: rest) :
    Message.next s =
      ({ s with g := rest, error := some e, msg_status := MSGSTATUS_REJECTED },
        NextResult.noOutput) ∧
    (Message.wait_until_done s).2 = Except.error e := by
  have hnext : Message.next s =
      ({ s with g := rest, error := some e, msg_status := MSGSTATUS_REJECTED },
        NextResult.noOutput) := by
    simp [Message.next, h0, hg]
  refine ⟨hnext, ?_⟩
  have hstep : Message.waitLoop (s.g.length + 1) s =
      Message.waitLoop s.g.length (Message.next s).1 := by
    simp [Message.waitLoop, h0]
  have hloop : Message.waitLoop (s.g.length + 1) s =
      { s with g := rest, error := some e, msg_status := MSGSTATUS_REJECTED } := by
    rw [hstep, hnext]
    exact waitLoop_of_terminal _ _ (by simp)
  exact wait_snd_error s e (by rw [hloop]; simp) (by rw [hloop])

/-- Witness for C4: a concrete transport failure is re-raised by
`wait_until_done`. -/
theorem producer_exception_captured_witness :
    Message.next (Message.construct [PullResult.raiseExc (PyExc.exc "transport failure")] false false) =
      ({ Message.construct [PullResult.raiseExc (PyExc.exc "transport failure")] false false with
          g := [], error := some (PyExc.exc "transport failure"),
          msg_status := MSGSTATUS_REJECTED }, NextResult.noOutput) ∧
    (Message.wait_until_done
        (Message.construct [PullResult.raiseExc (PyExc.exc "transport failure")] false false)).2 =
      Except.error (PyExc.exc "transport failure") :=
  producer_exception_captured _ _ _ rfl rfl

lemma waitLoop_no_final_rejected : ∀ (n : Nat) (s : Message), s.g.length ≤ n →
    s.msg_status = 0 →
    (∀ v, PullResult.yield v ∈ s.g →
      pySubscript v "type" ≠ Except.ok (PyVal.str MSGTYPE_FINAL)) →
    (Message.waitLoop (n + 1) s).msg_status = 2 := by
  intro n
  induction n with
  | zero =>
    intro s hlen h0 _
    have hnil : s.g = [] := List.length_eq_zero.mp (Nat.le_zero.mp hlen)
    have h2 := (next_pending_fields s h0).2.2.2.1 hnil
    have hstep : Message.waitLoop 1 s = (Message.next s).1 := by
      simp [Message.waitLoop, h0]
    rw [hstep]
    exact h2
  | succ m ih =>
    intro s hlen h0 hnf
    have hf := next_pending_fields s h0
    have hstep : Message.waitLoop (m + 1 + 1) s =
        Message.waitLoop (m + 1) (Message.next s).1 := by
      simp [Message.waitLoop, h0]
    rw [hstep]
    rcases hg : s.g with _ | ⟨x, rest⟩
    · have h2 := hf.2.2.2.1 hg
      rw [waitLoop_of_terminal _ _ (by omega)]
      exact h2
    · rw [hg] at hlen
      rcases hf.2.1 with hs0 | hs1 | hs2
      · apply ih
        · rw [hf.1, hg]
          simp at hlen ⊢
          omega
        · exact hs0
        · intro v hv
          apply hnf
          rw [hf.1, hg] at hv
          rw [hg]
          exact List.mem_cons_of_mem x hv
      · obtain ⟨a, rest2, t, hga, hsub, hfin⟩ := hf.2.2.2.2 hs1
        have ht := pyEqStr_true t MSGTYPE_FINAL hfin
        subst ht
        exact absurd hsub (hnf a (by rw [hga]; exact List.mem_cons_self _ _))
      · rw [waitLoop_of_terminal _ _ (by omega)]
        exact hs2

/-- C10: pulling from an exhausted producer while Pending is treated like
any other pull failure: the raised `StopIteration` itself is captured as
`error`, `msg_status` becomes Rejected and no event is surfaced;
`wait_until_done` on such a reader terminates by raising that captured
`StopIteration`. More generally a pending reader whose producer contains
no `finalAnswer`-typed event always finishes Rejected (never Pending or
Resolved). -/
theorem exhausted_producer_rejects (s : Message) (h0 : s.msg_status = MSGSTATUS_PENDING) :
    (s.g = [] →
      Message.next s =
        ({ s with error := some PyExc.stopIteration, msg_status := MSGSTATUS_REJECTED },
          NextResult.noOutput) ∧
      (Message.wait_until_done s).2 = Except.error PyExc.stopIteration) ∧
    ((∀ v, PullResult.yield v ∈ s.g →
        pySubscript v "type" ≠ Except.ok (PyVal.str MSGTYPE_FINAL)) →
      (Message.wait_until_done s).1.msg_status = MSGSTATUS_REJECTED) := by
  constructor
  · intro hg
    have hnext : Message.next s =
        ({ s with error := some PyExc.stopIteration, msg_status := MSGSTATUS_REJECTED },
          NextResult.noOutput) := by
      simp [Message.next, h0, hg]
    refine ⟨hnext, ?_⟩
    have hstep : Message.waitLoop (s.g.length + 1) s =
        Message.waitLoop s.g.length (Message.next s).1 := by
      simp [Message.waitLoop, h0]
    have hloop : Message.waitLoop (s.g.length + 1) s =
        { s with
            error := some PyExc.stopIteration
            msg_status := MSGSTATUS_REJECTED } := by
      rw [hstep, hnext]
      exact waitLoop_of_terminal _ _ (by simp)
    exact wait_snd_error s _ (by rw [hloop]; simp) (by rw [hloop])
  · intro hnf
    rw [wait_fst]
    exact waitLoop_no_final_rejected s.g.length s (le_refl _) h0 hnf

/-- Witness for C10: a reader over the empty producer ends Rejected with
the captured `StopIteration` re-raised by `wait_until_done`. -/
theorem exhausted_producer_rejects_witness :
    Message.next (Message.construct [] false false) =
      ({ Message.construct [] false false with
          error := some PyExc.stopIteration
          msg_status := MSGSTATUS_REJECTED }, NextResult.noOutput) ∧
    (Message.wait_until_done (Message.construct [] false false)).2 =
      Except.error PyExc.stopIteration :=
  (exhausted_producer_rejects (Message.construct [] false false) rfl).1 rfl

/-- C3: `wait_until_done` loops `__next__` until `msg_status` is terminal;
it then returns `final_answer` when Resolved, and otherwise (Rejected)
raises the captured `error` when one is present and a generic
"Rejected but no error captured!" exception when `error` is `None`. -/
theorem wait_until_done_contract (s : Message) (hle : s.msg_status ≤ 2) :
    ((Message.wait_until_done s).1.msg_status = MSGSTATUS_RESOLVED ∨
      (Message.wait_until_done s).1.msg_status = MSGSTATUS_REJECTED) ∧
    ((Message.wait_until_done s).1.msg_status = MSGSTATUS_RESOLVED →
      (Message.wait_until_done s).2 =
        Except.ok (Message.wait_until_done s).1.final_answer) ∧
    ((Message.wait_until_done s).1.msg_status = MSGSTATUS_REJECTED →
      (∀ e, (Message.wait_until_done s).1.error = some e →
        (Message.wait_until_done s).2 = Except.error e) ∧
      ((Message.wait_until_done s).1.error = none →
        (Message.wait_until_done s).2 =
          Except.error (PyExc.exc "Rejected but no error captured!"))) := by
  have hfst := wait_fst s
  have hne := waitLoop_status_ne_zero s.g.length s (le_refl _)
  have hle2 := waitLoop_status_le_two (s.g.length + 1) s hle
  refine ⟨?_, ?_, ?_⟩
  · rw [hfst]
    simp only [MSGSTATUS_RESOLVED, MSGSTATUS_REJECTED]
    omega
  · intro h1
    rw [hfst] at h1 ⊢
    exact wait_snd_resolved s h1
  · intro h2
    rw [hfst] at h2
    constructor
    · intro e he
      rw [hfst] at he
      exact wait_snd_error s e (by simp [h2]) he
    · intro he
      rw [hfst] at he
      exact wait_snd_no_error s (by simp [h2]) he

/-- Witness for C3 at a concrete resolving producer. -/
theorem wait_until_done_contract_witness :
    (Message.wait_until_done (Message.construct
        [PullResult.yield (PyVal.dict [("type", PyVal.str "finalAnswer"),
          ("text", PyVal.str "hello")])] false false)).1.msg_status = MSGSTATUS_RESOLVED ∨
    (Message.wait_until_done (Message.construct
        [PullResult.yield (PyVal.dict [("type", PyVal.str "finalAnswer"),
          ("text", PyVal.str "hello")])] false false)).1.msg_status = MSGSTATUS_REJECTED :=
  (wait_until_done_contract _ (by decide)).1

/-- The state reached by pulling a single unrecognized event (a dict with
an unknown `type` and no `error` field): the classifier's fallback stores
an "Unknow json response" `ChatError` but leaves `msg_status` Pending. -/
def pendingWithError : Message :=
  (Message.next (Message.construct
    [PullResult.yield (PyVal.dict [("type", PyVal.str "bogus")])] false false)).1

/-- C7 counterexample: a reachable state in which `error` is non-null yet
`msg_status` is not Rejected — the unrecognized-response branch captures a
`ChatError` without changing the Pending status, so the claimed
iff fails in the left-to-right direction. -/
theorem error_iff_rejected_counterexample :
    Reachable pendingWithError ∧
    pendingWithError.error.isSome = true ∧
    pendingWithError.msg_status ≠ MSGSTATUS_REJECTED := by
  refine ⟨Reachable.step _ (Reachable.init _ _ _), rfl, by decide⟩

/-- C7 amended: in every reachable state, if `msg_status` is Rejected then
`error` is non-null; the converse direction of the original claim fails
(see the counterexample): a captured error does not imply Rejected,
because the unrecognized-response branch leaves the status Pending. -/
theorem rejected_implies_error_captured (s : Message) (hr : Reachable s)
    (h2 : s.msg_status = MSGSTATUS_REJECTED) : s.error.isSome = true := by
  revert h2
  induction hr with
  | init g syall ws =>
    intro h2
    simp [Message.construct] at h2
  | step s' hs ih =>
    intro h2
    by_cases h0 : s'.msg_status = 0
    · exact (next_pending_fields s' h0).2.2.1 h2
    · rw [next_of_terminal s' h0] at h2 ⊢
      exact ih h2

/-- Witness for C7 (amended) at a concrete rejected reachable state. -/
theorem rejected_implies_error_captured_witness :
    ((Message.next (Message.construct [] false false)).1.error.isSome = true) :=
  rejected_implies_error_captured _ (Reachable.step _ (Reachable.init _ _ _)) rfl

/-- C2 counterexample: the spec's Scenario C/D event carries an `error`
field but no `type` discriminant, so its discriminant is none of the four
known kinds; the claim demands a `ChatError` wrapping `"bad request"` with
status Rejected, but the classifier never runs: reading `a["type"]` raises
`KeyError`, which the `except` clause captures verbatim, so the captured
error is the `KeyError`, not a `ChatError`. -/
theorem classifier_counterexample :
    pyContains (PyVal.dict [("error", PyVal.str "bad request")]) "error" = true ∧
    pyInStr "Model is overloaded"
      (pyStr (PyVal.dict [("error", PyVal.str "bad request")])) = false ∧
    (Message.next (Message.construct
        [PullResult.yield (PyVal.dict [("error", PyVal.str "bad request")])]
        false false)).1.error = some (PyExc.keyError "type") ∧
    (Message.next (Message.construct
        [PullResult.yield (PyVal.dict [("error", PyVal.str "bad request")])]
        false false)).1.error ≠ some (PyExc.chatError (PyVal.str "bad request")) := by
  refine ⟨rfl, by decide, rfl, ?_⟩
  intro h
  rw [show (Message.next (Message.construct
      [PullResult.yield (PyVal.dict [("error", PyVal.str "bad request")])]
      false false)).1.error = some (PyExc.keyError "type") from rfl] at h
  injection h with h1
  exact PyExc.noConfusion h1

/-- C2 amended: for every pulled event that carries a `type` discriminant
whose value is none of stream/status/finalAnswer/webSearch, the classifier
applies in priority order: (1) if the event's textual representation
contains the overload marker, `error` becomes a `ModelOverloadedError` and
the status Rejected; (2) else if the event has an `error` field, `error`
becomes a `ChatError` wrapping that field's value and the status Rejected;
(3) else `error` becomes an unrecognized-response `ChatError` describing
the raw event and the status stays Pending. (An event with no `type`
field at all instead follows the pull-failure path: its `KeyError` is
captured and the status becomes Rejected — see the counterexample.) -/
theorem classifier_priority (s : Message) (a t : PyVal) (rest : List PullResult)
    (h0 : s.msg_status = MSGSTATUS_PENDING) (hg : s.g = PullResult.yield a :: rest)
    (ht : pySubscript a "type" = Except.ok t)
    (hns : pyEqStr t MSGTYPE_STREAM = false) (hnt : pyEqStr t MSGTYPE_STATUS = false)
    (hnf : pyEqStr t MSGTYPE_FINAL = false) (hnw : pyEqStr t MSGTYPE_WEB = false) :
    (pyInStr "Model is overloaded" (pyStr a) = true →
      (Message.next s).1.error = some (PyExc.modelOverloadedError overloadedDetail) ∧
      (Message.next s).1.msg_status = MSGSTATUS_REJECTED) ∧
    (pyInStr "Model is overloaded" (pyStr a) = false →
      (∀ v, pySubscript a "error" = Except.ok v →
        (Message.next s).1.error = some (PyExc.chatError v) ∧
        (Message.next s).1.msg_status = MSGSTATUS_REJECTED) ∧
      (pyContains a "error" = false →
        (Message.next s).1.error = some (PyExc.chatError (PyVal.str
          ("Unknow json response: " ++ pyStr a))) ∧
        (Message.next s).1.msg_status = MSGSTATUS_PENDING)) := by
  constructor
  · intro hov
    have hd := dispatch_classifier_overloaded { s with g := rest, msg_status := 0 }
      a t hns hnt hnf hnw hov
    have h := (next_yield_ok s a t rest h0 hg ht _ hd).1
    rw [h]
    exact ⟨rfl, rfl⟩
  · intro hov
    constructor
    · intro v hv
      have hd := dispatch_classifier_error_field { s with g := rest, msg_status := 0 }
        a t v hns hnt hnf hnw hov hv
      have h := (next_yield_ok s a t rest h0 hg ht _ hd).1
      rw [h]
      exact ⟨rfl, rfl⟩
    · intro hc
      have hd := dispatch_classifier_unknown { s with g := rest, msg_status := 0 }
        a t hns hnt hnf hnw hov hc
      have h := (next_yield_ok s a t rest h0 hg ht _ hd).1
      rw [h]
      exact ⟨rfl, rfl⟩

/-- Witness for C2 (amended): a typed but unknown event with an `error`
field is classified as a `ChatError` wrapping the field's value, Rejected. -/
theorem classifier_priority_witness :
    (Message.next (Message.construct
        [PullResult.yield (PyVal.dict [("type", PyVal.str "err"),
          ("error", PyVal.str "bad request")])] false false)).1.error =
      some (PyExc.chatError (PyVal.str "bad request")) ∧
    (Message.next (Message.construct
        [PullResult.yield (PyVal.dict [("type", PyVal.str "err"),
          ("error", PyVal.str "bad request")])] false false)).1.msg_status =
      MSGSTATUS_REJECTED :=
  ((classifier_priority
      (Message.construct
        [PullResult.yield (PyVal.dict [("type", PyVal.str "err"),
          ("error", PyVal.str "bad request")])] false false)
      (PyVal.dict [("type", PyVal.str "err"), ("error", PyVal.str "bad request")])
      (PyVal.str "err") [] rfl rfl rfl rfl rfl rfl rfl).2
    (by decide)).1 (PyVal.str "bad request") rfl

/-- C8: a pulled `webSearch` event carrying a `sources` list replaces
`web_search_sources` wholesale with the freshly parsed batch — one
`WebSearchSource` per entry, in order, with title/link/hostname read from
the entry — irrespective of whatever `web_search_sources` held before (the
state `s` and its previous batch are arbitrary), so after the advance the
field equals exactly the most recent event's sources. -/
theorem websearch_sources_replaced (s : Message) (a : PyVal)
    (rest : List PullResult) (items : List PyVal)
    (h0 : s.msg_status = MSGSTATUS_PENDING)
    (hg : s.g = PullResult.yield a :: rest)
    (ht : pySubscript a "type" = Except.ok (PyVal.str MSGTYPE_WEB))
    (hs : pySubscript a "sources" = Except.ok (PyVal.list items))
    (hok : ∀ v ∈ items, ∃ w, parseSource v = Except.ok w) :
    List.Forall₂ (fun it w => parseSource it = Except.ok w) items
      ((Message.next s).1.web_search_sources) := by
  obtain ⟨hnone, hall⟩ := parseSources_of_ok items hok
  have hp : parseSources items = ((parseSources items).1, none) := by
    rw [← hnone]
  have hd := dispatch_web_sources { s with g := rest, msg_status := 0 } a items _ hs hp
  have h := (next_yield_ok s a (PyVal.str MSGTYPE_WEB) rest h0 hg ht _ hd).1
  rw [h]
  exact hall

/-- Witness for C8 at the spec's Scenario B source batch. -/
theorem websearch_sources_replaced_witness :
    List.Forall₂ (fun it w => parseSource it = Except.ok w)
      [PyVal.dict [("title", PyVal.str "T"), ("link", PyVal.str "L"),
        ("hostname", PyVal.str "H")]]
      ((Message.next (Message.construct
        [PullResult.yield (PyVal.dict [("type", PyVal.str "webSearch"),
          ("sources", PyVal.list [PyVal.dict [("title", PyVal.str "T"),
            ("link", PyVal.str "L"), ("hostname", PyVal.str "H")]])])]
        false true)).1.web_search_sources) :=
  websearch_sources_replaced _ _ _ _ rfl rfl rfl rfl
    (by
      intro v hv
      rw [List.mem_singleton] at hv
      subst hv
      exact ⟨⟨PyVal.str "T", PyVal.str "L", PyVal.str "H"⟩, rfl⟩)
